import Mathlib

/-!
Verification of the TalentPower/ClientApp driver-tracking client.

Shallow embedding of the services the specification's claims are about:

* `TripLocationService` (src/services/locationEmulator.ts): the offline
  pending-update queue (`updateCurrentLocation`, `retryPendingUpdates`,
  `getPendingUpdatesCount`).
* `MockTripService` (src/services/locationEmulator.ts): the trip lifecycle
  (`createTrip`, `startTrip`, `endTrip`).
* `ApiAuthService` (src/services/apiAuth.ts): `login`, `storeAuthData`,
  `isAuthenticated`, `isTokenValid`, `base64Decode`.
* The Haversine distance (`calculateDistance`, duplicated near-identically in
  src/services/location.ts, src/services/locationEmulator.ts and
  src/services/apiAuth.ts).
* `retryOperation` (src/utils/errorHandler.ts).

JavaScript numbers are modelled by `ℚ` (coordinates) / `ℤ` (Unix times) where
the code only stores and compares them, and by `ℝ` where the code does real
trigonometry (the Haversine formula).  Promise rejection / `throw` is modelled
by `Except`; the Firestore / network outcome of each write attempt is an
explicit oracle argument.
-/

namespace ClientApp

/-! ### TripLocationService (src/services/locationEmulator.ts, lines 900–1160)

State relevant to the pending-update claims: the in-memory
`pendingUpdates : Coordinate[]` array, the `currentTripId : string | null`
field, and (for "submitting in insertion order") the ordered log of successful
`currentLocation` Firestore writes.  The other fields written on success
(`lastUpdate`, `coordinateCount`, the history subcollection — whose failures
`addToHistory` swallows) are not mentioned by any claim and are omitted. -/

/-- `Coordinate` interface of locationEmulator.ts (optional accuracy /
speed / heading fields omitted; no claim mentions them). -/
structure Coordinate where
  latitude : ℚ
  longitude : ℚ
  timestamp : ℕ
deriving DecidableEq, Repr

/-- The mutable fields of the `TripLocationService` singleton, plus the log of
successful current-location writes (in the order they were issued). -/
structure TripLocationState where
  pendingUpdates : List Coordinate
  currentTripId : Option String
  writes : List (String × Coordinate)
deriving DecidableEq, Repr

/-- `TripLocationService.updateCurrentLocation(tripId, coordinate)`.
`ok` is the outcome of the Firestore `update` (the await can reject).
On success the write is appended to the write log; on failure the `catch`
block pushes the coordinate onto `pendingUpdates` and rethrows. -/
def updateCurrentLocation (ok : Bool) (tripId : String) (c : Coordinate)
    (s : TripLocationState) : Except Unit Unit × TripLocationState :=
  if ok then
    (Except.ok (), { s with writes := s.writes ++ [(tripId, c)] })
  else
    (Except.error (), { s with pendingUpdates := s.pendingUpdates ++ [c] })

/-- JavaScript truthiness of `this.currentTripId` (`!this.currentTripId`
is true for `null` and for the empty string). -/
def tripIdUnset : Option String → Bool
  | none => true
  | some t => t.data.isEmpty

/-- The `for (const coordinate of updates)` loop body of
`retryPendingUpdates`: each coordinate is re-sent through
`updateCurrentLocation`; when that call rejects, its own `catch` block has
already pushed the coordinate, and the loop's `catch` block pushes it again
(`this.pendingUpdates.push(coordinate)`). -/
def retryPendingUpdatesLoop (ok : Coordinate → Bool) (tripId : String) :
    List Coordinate → TripLocationState → TripLocationState
  | [], s => s
  | c :: rest, s =>
    match updateCurrentLocation (ok c) tripId c s with
    | (Except.ok _, s') => retryPendingUpdatesLoop ok tripId rest s'
    | (Except.error _, s') =>
        retryPendingUpdatesLoop ok tripId rest
          { s' with pendingUpdates := s'.pendingUpdates ++ [c] }

/-- `TripLocationService.retryPendingUpdates()`.  Early-returns when the
queue is empty or no current trip id is set; otherwise snapshots the queue
(`const updates = [...this.pendingUpdates]`), clears it, and replays every
snapshotted coordinate.  `ok` gives the outcome of each retry attempt. -/
def retryPendingUpdates (ok : Coordinate → Bool) (s : TripLocationState) :
    TripLocationState :=
  if s.pendingUpdates.length == 0 || tripIdUnset s.currentTripId then s
  else
    match s.currentTripId with
    | none => s
    | some tripId =>
        retryPendingUpdatesLoop ok tripId s.pendingUpdates
          { s with pendingUpdates := [] }

/-- `TripLocationService.getPendingUpdatesCount()`. -/
def getPendingUpdatesCount (s : TripLocationState) : ℕ :=
  s.pendingUpdates.length

/-- N consecutive location updates that all fail (each one routed through
`updateCurrentLocation` with a rejecting Firestore write). -/
def recordFailedUpdates (tripId : String) (cs : List Coordinate)
    (s : TripLocationState) : TripLocationState :=
  cs.foldl (fun s c => (updateCurrentLocation false tripId c s).2) s

/-! ### MockTripService (src/services/locationEmulator.ts, lines 355–640)

Trip lifecycle: `createTrip` makes a `'pending'` trip, `startTrip` sets
`'active'`, `endTrip` sets `'completed'`.  None of the operations inspects
the current status before overwriting it.  The `distance` field that
`endTrip` additionally stores (the Haversine total over the waypoints, a
real number) is omitted from the state record: no claim mentions its value
and carrying an `ℝ` would make trip states undecidable; the Haversine
formula itself is embedded below as `calculateDistance`. -/

/-- The `Location` record of src/types used by `MockTripService`. -/
structure MockLocation where
  latitude : ℚ
  longitude : ℚ
deriving DecidableEq, Repr

/-- `'pending' | 'active' | 'completed' | 'cancelled'`. -/
inductive TripStatus where
  | pending
  | active
  | completed
  | cancelled
deriving DecidableEq, Repr

/-- The `Trip` interface of locationEmulator.ts (fields a claim can observe). -/
structure Trip where
  id : String
  driverId : String
  driverName : String
  status : TripStatus
  startLocation : Option MockLocation
  endLocation : Option MockLocation
  currentLocation : Option MockLocation
  destination : Option MockLocation
  startTime : Option ℕ
  endTime : Option ℕ
  duration : Option ℤ
  waypoints : List MockLocation
  notes : Option String
  createdAt : ℕ
  updatedAt : ℕ
deriving DecidableEq, Repr

/-- `private trips: Map<string, Trip>`, as an association list keyed by
trip id (`Map.set` replaces an existing binding in place). -/
abbrev TripMap := List (String × Trip)

/-- `this.trips.get(tripId)`. -/
def tripsGet (ts : TripMap) (tripId : String) : Option Trip :=
  match ts.find? (fun kv => kv.1 == tripId) with
  | some kv => some kv.2
  | none => none

/-- `this.trips.set(tripId, trip)`: replace the existing binding, else append. -/
def tripsSet (ts : TripMap) (tripId : String) (trip : Trip) : TripMap :=
  match ts with
  | [] => [(tripId, trip)]
  | kv :: rest =>
      if kv.1 == tripId then (tripId, trip) :: rest
      else kv :: tripsSet rest tripId trip

/-- `MockTripService.createTrip(destination?)`: builds a `'pending'` trip with
id `trip_${Date.now()}_mock` and stores it.  `now` is `Date.now()`. -/
def createTrip (now : ℕ) (destination : Option MockLocation) (ts : TripMap) :
    Trip × TripMap :=
  let tripId := s!"trip_{now}_mock"
  let trip : Trip :=
    { id := tripId
      driverId := "mock_driver_id"
      driverName := "Conductor Demo"
      status := .pending
      startLocation := none
      endLocation := none
      currentLocation := none
      destination := destination
      startTime := none
      endTime := none
      duration := none
      waypoints := []
      notes := none
      createdAt := now
      updatedAt := now }
  (trip, tripsSet ts tripId trip)

/-- `MockTripService.startTrip(tripId, startLocation)`: throws when the trip
is missing, otherwise overwrites `status` with `'active'` regardless of the
current status. -/
def startTrip (now : ℕ) (tripId : String) (startLocation : MockLocation)
    (ts : TripMap) : Except Unit TripMap :=
  match tripsGet ts tripId with
  | none => Except.error ()
  | some trip =>
      Except.ok (tripsSet ts tripId
        { trip with
          status := .active
          startLocation := some startLocation
          currentLocation := some startLocation
          startTime := some now
          updatedAt := now })

/-- `MockTripService.endTrip(tripId, endLocation, notes?)`: throws when the
trip is missing, otherwise overwrites `status` with `'completed'`
(`duration = trip.startTime ? now - trip.startTime : 0`). -/
def endTrip (now : ℕ) (tripId : String) (endLocation : MockLocation)
    (notes : Option String) (ts : TripMap) : Except Unit (Trip × TripMap) :=
  match tripsGet ts tripId with
  | none => Except.error ()
  | some trip =>
      let updated : Trip :=
        { trip with
          status := .completed
          endLocation := some endLocation
          endTime := some now
          duration := some (match trip.startTime with
            | some st => (now : ℤ) - st
            | none => 0)
          notes := notes
          updatedAt := now }
      Except.ok (updated, tripsSet ts tripId updated)

/-- Position of a status in the lifecycle order
PLANNED/pending → IN_PROGRESS/active → COMPLETED of the glossary. -/
def statusRank : TripStatus → ℕ
  | .pending => 0
  | .active => 1
  | .completed => 2
  | .cancelled => 3

/-! ### ApiAuthService (src/services/apiAuth.ts, lines 1–210)

`isTokenValid` splits the token on `'.'`, base64-decodes part 1,
`JSON.parse`s it and returns `payload.exp > currentTime`; every throw along
the way is caught and turned into `false`.  `base64Decode` is the service's
own hand-rolled decoder and is embedded instruction by instruction,
including its JavaScript quirks (`indexOf` returning `-1`, 32-bit signed
bitwise arithmetic, `charAt` past the end yielding `""` whose `indexOf`
is `0`). -/

/-- The decoder's alphabet
`'ABCDEFGHIJKLMNOPQRSTUVWXYZabcdefghijklmnopqrstuvwxyz0123456789+/'`. -/
def b64chars : List Char :=
  "ABCDEFGHIJKLMNOPQRSTUVWXYZabcdefghijklmnopqrstuvwxyz0123456789+/".data

/-- JavaScript `chars.indexOf(c)`: first index, `-1` when absent. -/
def jsIndexOf (cs : List Char) (c : Char) : ℤ :=
  match cs.findIdx? (fun x => x == c) with
  | some i => (i : ℤ)
  | none => -1

/-- A JavaScript number reinterpreted as its unsigned 32-bit bit pattern
(`ToUint32`), e.g. `-1 ↦ 2^32 - 1`. -/
def toUInt32Bits (i : ℤ) : ℕ :=
  (i % 4294967296).toNat

/-- JavaScript `<<` on 32-bit operands. -/
def jsShl (x k : ℕ) : ℕ :=
  (x <<< k) % 4294967296

/-- `(a << 18) | (b << 12) | (c << 6) | d` over signed-32-bit inputs. -/
def b64Bitmap (a b c d : ℤ) : ℕ :=
  jsShl (toUInt32Bits a) 18 ||| jsShl (toUInt32Bits b) 12 |||
    jsShl (toUInt32Bits c) 6 ||| toUInt32Bits d

/-- One iteration's output: `String.fromCharCode` of up to three bytes of
the bitmap.  The `c !== 64` / `d !== 64` guards are kept as written; they
expect the classic 65-character alphabet ending in `'='`, but this alphabet
has only 64 characters, so `indexOf` never returns 64, the guards always
pass, and padding `'='` decodes through index `-1` into garbage bytes —
which is what the JavaScript does. -/
def b64EmitBytes (a b c d : ℤ) : List Char :=
  let bitmap := b64Bitmap a b c d
  [Char.ofNat ((bitmap >>> 16) &&& 255)] ++
    (if c ≠ 64 then [Char.ofNat ((bitmap >>> 8) &&& 255)] else []) ++
    (if d ≠ 64 then [Char.ofNat (bitmap &&& 255)] else [])

/-- The `while (i < str.length)` loop of `base64Decode`: consume four
characters per iteration.  The short trailing cases read `charAt` past the
end, which yields `""` whose `indexOf` is `0` (they are unreachable after
padding, whose output length is a multiple of four). -/
def base64DecodeLoop : List Char → List Char
  | [] => []
  | [c1] => b64EmitBytes (jsIndexOf b64chars c1) 0 0 0
  | [c1, c2] => b64EmitBytes (jsIndexOf b64chars c1) (jsIndexOf b64chars c2) 0 0
  | [c1, c2, c3] =>
      b64EmitBytes (jsIndexOf b64chars c1) (jsIndexOf b64chars c2)
        (jsIndexOf b64chars c3) 0
  | c1 :: c2 :: c3 :: c4 :: rest =>
      b64EmitBytes (jsIndexOf b64chars c1) (jsIndexOf b64chars c2)
        (jsIndexOf b64chars c3) (jsIndexOf b64chars c4) ++
        base64DecodeLoop rest

/-- `while (str.length % 4) { str += '=' }`. -/
def padBase64 (s : List Char) : List Char :=
  s ++ List.replicate ((4 - s.length % 4) % 4) '='

/-- `ApiAuthService.base64Decode(str)`.  The surrounding try/catch is dead:
no statement in the body can throw, so the `return ''` branch is
unreachable and the function is total. -/
def base64Decode (str : String) : String :=
  String.mk (base64DecodeLoop (padBase64 str.data))

/-- A JavaScript value produced by the platform builtin `JSON.parse`: the
full JSON value grammar — objects, arrays, strings, numbers, `true`,
`false`, `null`.  Numbers are kept as exact rationals; the binary64
rounding JavaScript applies is not modelled (rounding moves a number by at
most an ulp, it never turns a number into a non-number, which is all the
claims observe). -/
inductive JsValue where
  | num (q : ℚ)
  | str (s : String)
  | bool (b : Bool)
  | null
  | obj (members : List (String × JsValue))
  | arr (elements : List JsValue)

/-- A JavaScript number as `payload.exp > currentTime` consumes it: a
finite value, one of the two infinities (e.g. from `Number('Infinity')`),
or `NaN`, whose comparisons are all false. -/
inductive JsNumber where
  | finite (q : ℚ)
  | posInf
  | negInf
  | nan
deriving DecidableEq, Repr

/-- JSON insignificant whitespace. -/
def skipWs : List Char → List Char
  | c :: rest =>
      if c == ' ' || c == '\t' || c == '\n' || c == '\r' then skipWs rest
      else c :: rest
  | [] => []

/-- Value of a digit in base `b ≤ 16`, `none` when invalid. -/
def radixDigitVal (b : ℕ) (c : Char) : Option ℕ :=
  let v : Option ℕ :=
    if c.isDigit then some (c.toNat - 48)
    else if 'a' ≤ c ∧ c ≤ 'f' then some (c.toNat - 87)
    else if 'A' ≤ c ∧ c ≤ 'F' then some (c.toNat - 55)
    else none
  match v with
  | some k => if k < b then some k else none
  | none => none

/-- A JSON string literal after its opening quote, with escape sequences
(`\" \\ \/ \b \f \n \r \t \uXXXX`); raw control characters and invalid
escapes are syntax errors, as in `JSON.parse`.  A `\u` escape in the
surrogate range decodes to U+0000 instead of a lone UTF-16 surrogate
(unrepresentable in `Char`); either way the character is non-numeric in
every position the claims observe. -/
def parseJsonString : List Char → Option (List Char × List Char)
  | [] => none
  | '"' :: rest => some ([], rest)
  | '\\' :: '"' :: rest =>
      (parseJsonString rest).map (fun p => ('"' :: p.1, p.2))
  | '\\' :: '\\' :: rest =>
      (parseJsonString rest).map (fun p => ('\\' :: p.1, p.2))
  | '\\' :: '/' :: rest =>
      (parseJsonString rest).map (fun p => ('/' :: p.1, p.2))
  | '\\' :: 'b' :: rest =>
      (parseJsonString rest).map (fun p => (Char.ofNat 8 :: p.1, p.2))
  | '\\' :: 'f' :: rest =>
      (parseJsonString rest).map (fun p => (Char.ofNat 12 :: p.1, p.2))
  | '\\' :: 'n' :: rest =>
      (parseJsonString rest).map (fun p => ('\n' :: p.1, p.2))
  | '\\' :: 'r' :: rest =>
      (parseJsonString rest).map (fun p => (Char.ofNat 13 :: p.1, p.2))
  | '\\' :: 't' :: rest =>
      (parseJsonString rest).map (fun p => ('\t' :: p.1, p.2))
  | '\\' :: 'u' :: h1 :: h2 :: h3 :: h4 :: rest =>
      match radixDigitVal 16 h1, radixDigitVal 16 h2,
          radixDigitVal 16 h3, radixDigitVal 16 h4 with
      | some a, some b, some c, some d =>
          (parseJsonString rest).map
            (fun p => (Char.ofNat (a * 4096 + b * 256 + c * 16 + d) :: p.1,
              p.2))
      | _, _, _, _ => none
  | '\\' :: _ => none
  | c :: rest =>
      if c.toNat < 32 then none
      else (parseJsonString rest).map (fun p => (c :: p.1, p.2))

/-- Leading decimal digits: value, number of digits consumed, rest. -/
def parseDigits : List Char → ℕ → ℕ → ℕ × ℕ × List Char
  | [], acc, cnt => (acc, cnt, [])
  | c :: rest, acc, cnt =>
      if c.isDigit then parseDigits rest (10 * acc + (c.toNat - 48)) (cnt + 1)
      else (acc, cnt, c :: rest)

/-- Exponent digits with optional sign (shared by the JSON number grammar
and the `StrDecimalLiteral` grammar of `ToNumber`). -/
def parseExpDigits (s : List Char) : Option (ℤ × List Char) :=
  let (sgn, s1) : Bool × List Char :=
    match s with
    | '+' :: r => (false, r)
    | '-' :: r => (true, r)
    | _ => (false, s)
  let (d, dc, r2) := parseDigits s1 0 0
  if dc == 0 then none
  else some ((if sgn then -(d : ℤ) else (d : ℤ)), r2)

/-- An optional `e`/`E` exponent part; its absence is exponent 0. -/
def parseExpPart : List Char → Option (ℤ × List Char)
  | 'e' :: r => parseExpDigits r
  | 'E' :: r => parseExpDigits r
  | s => some (0, s)

/-- An optional `.digits` fraction part (JSON requires at least one digit
after the dot); its absence contributes 0. -/
def parseFracPart : List Char → Option (ℚ × List Char)
  | '.' :: r =>
      let (f, fc, r2) := parseDigits r 0 0
      if fc == 0 then none
      else some ((f : ℚ) / (10 : ℚ) ^ fc, r2)
  | s => some (0, s)

/-- Fraction and exponent of a JSON number whose integer part is `i`. -/
def parseNumberTail (neg : Bool) (i : ℕ) (s : List Char) :
    Option (ℚ × List Char) :=
  match parseFracPart s with
  | none => none
  | some (fq, s2) =>
      match parseExpPart s2 with
      | none => none
      | some (ex, s3) =>
          let v := ((i : ℚ) + fq) * (10 : ℚ) ^ ex
          some ((if neg then -v else v), s3)

/-- A JSON number literal: `-? (0 | [1-9][0-9]*) (. [0-9]+)?
([eE][+-]?[0-9]+)?` — in particular a leading zero must not be followed by
another digit, and a lone `-` or `+` sign is a syntax error. -/
def parseNumberLit (s : List Char) : Option (ℚ × List Char) :=
  let (neg, s1) : Bool × List Char :=
    match s with
    | '-' :: r => (true, r)
    | _ => (false, s)
  match s1 with
  | '0' :: r =>
      match r with
      | c :: _ => if c.isDigit then none else parseNumberTail neg 0 r
      | [] => parseNumberTail neg 0 []
  | c :: _ =>
      if c.isDigit then
        let (i, _, r) := parseDigits s1 0 0
        parseNumberTail neg i r
      else none
  | [] => none

/-- The members of an object after its `'{'` (at least one; the caller
handles `{}`), with the value parser passed in.  The fuel is one more than
the remaining input length; every member consumes at least one character,
so it never runs out on an input the grammar accepts. -/
def parseObjMembers (pv : List Char → Option (JsValue × List Char)) :
    ℕ → List Char → Option (List (String × JsValue) × List Char)
  | 0, _ => none
  | fuel + 1, s =>
      match s with
      | '"' :: rest =>
          match parseJsonString rest with
          | none => none
          | some (key, r1) =>
              match skipWs r1 with
              | ':' :: r2 =>
                  match pv (skipWs r2) with
                  | none => none
                  | some (v, r3) =>
                      match skipWs r3 with
                      | ',' :: r4 =>
                          match parseObjMembers pv fuel (skipWs r4) with
                          | some (ms, r5) =>
                              some ((String.mk key, v) :: ms, r5)
                          | none => none
                      | '}' :: r4 => some ([(String.mk key, v)], r4)
                      | _ => none
              | _ => none
      | _ => none

/-- The elements of an array after its `'['` (at least one; the caller
handles `[]`), with the value parser passed in. -/
def parseArrElements (pv : List Char → Option (JsValue × List Char)) :
    ℕ → List Char → Option (List JsValue × List Char)
  | 0, _ => none
  | fuel + 1, s =>
      match pv s with
      | none => none
      | some (v, r1) =>
          match skipWs r1 with
          | ',' :: r2 =>
              match parseArrElements pv fuel (skipWs r2) with
              | some (vs, r3) => some (v :: vs, r3)
              | none => none
          | ']' :: r2 => some ([v], r2)
          | _ => none

/-- A JSON value, fueled by the nesting depth (each level consumes at least
one character before recursing, so an input's length bounds its depth). -/
def parseValueFuel : ℕ → List Char → Option (JsValue × List Char)
  | 0, _ => none
  | fuel + 1, s =>
      match s with
      | '"' :: rest =>
          (parseJsonString rest).map
            (fun p => (JsValue.str (String.mk p.1), p.2))
      | 't' :: 'r' :: 'u' :: 'e' :: rest => some (JsValue.bool true, rest)
      | 'f' :: 'a' :: 'l' :: 's' :: 'e' :: rest =>
          some (JsValue.bool false, rest)
      | 'n' :: 'u' :: 'l' :: 'l' :: rest => some (JsValue.null, rest)
      | '{' :: rest =>
          match skipWs rest with
          | '}' :: r2 => some (JsValue.obj [], r2)
          | r1 =>
              (parseObjMembers (parseValueFuel fuel) (r1.length + 1) r1).map
                (fun p => (JsValue.obj p.1, p.2))
      | '[' :: rest =>
          match skipWs rest with
          | ']' :: r2 => some (JsValue.arr [], r2)
          | r1 =>
              (parseArrElements (parseValueFuel fuel) (r1.length + 1) r1).map
                (fun p => (JsValue.arr p.1, p.2))
      | _ => (parseNumberLit s).map (fun p => (JsValue.num p.1, p.2))

/-- Models the platform builtin `JSON.parse` as `isTokenValid` consumes it:
the full JSON grammar, requiring the whole input.  A top-level value that
is not an object is collapsed to `none`: on it the subsequent
`payload.exp` access either throws (`null`) or yields `undefined`
(numbers, strings, booleans, arrays), and `isTokenValid` returns false in
every one of those cases, exactly as for a parse error. -/
def jsonParseObject (str : String) : Option (List (String × JsValue)) :=
  match parseValueFuel (str.data.length + 1) (skipWs str.data) with
  | some (JsValue.obj ms, rest) =>
      if (skipWs rest).isEmpty then some ms else none
  | _ => none

/-- JavaScript property access on an object literal with possibly repeated
keys: the last occurrence wins. -/
def jsLookup (key : String) : List (String × JsValue) → Option JsValue
  | [] => none
  | (k, v) :: rest =>
      match jsLookup key rest with
      | some v' => some v'
      | none => if k == key then some v else none

/-- The `StrWhiteSpaceChar` set `ToNumber` strips from strings: ECMAScript
WhiteSpace and LineTerminator code points. -/
def isJsWhitespace (c : Char) : Bool :=
  c.toNat == 9 || c.toNat == 10 || c.toNat == 11 || c.toNat == 12 ||
    c.toNat == 13 || c.toNat == 32 || c.toNat == 160 || c.toNat == 5760 ||
    (8192 ≤ c.toNat && c.toNat ≤ 8202) || c.toNat == 8232 ||
    c.toNat == 8233 || c.toNat == 8239 || c.toNat == 8287 ||
    c.toNat == 12288 || c.toNat == 65279

/-- Leading and trailing ECMAScript whitespace stripped. -/
def jsTrim (s : List Char) : List Char :=
  ((s.dropWhile isJsWhitespace).reverse.dropWhile isJsWhitespace).reverse

/-- Digits of a non-decimal integer literal (`0x…`, `0o…`, `0b…`): the
value when nonempty and all digits are valid for the base, else `NaN`. -/
def radixAccum (b : ℕ) : List Char → ℕ → ℕ → Option ℕ
  | [], acc, cnt => if cnt == 0 then none else some acc
  | c :: r, acc, cnt =>
      match radixDigitVal b c with
      | some k => radixAccum b r (b * acc + k) (cnt + 1)
      | none => none

/-- A whole non-decimal integer literal as a JavaScript number. -/
def radixNumber (b : ℕ) (cs : List Char) : JsNumber :=
  match radixAccum b cs 0 0 with
  | some n => JsNumber.finite n
  | none => JsNumber.nan

/-- `StrUnsignedDecimalLiteral` without `Infinity`: `digits [. digits?]
exp?` or `. digits exp?` (unlike JSON, `05`, `5.` and `.5` are allowed),
consuming the whole input. -/
def strDecimalValue (cs : List Char) : Option ℚ :=
  let (i, ic, r1) := parseDigits cs 0 0
  match r1 with
  | '.' :: r2 =>
      let (f, fc, r3) := parseDigits r2 0 0
      if ic == 0 && fc == 0 then none
      else
        match parseExpPart r3 with
        | some (ex, []) =>
            some (((i : ℚ) + (f : ℚ) / (10 : ℚ) ^ fc) * (10 : ℚ) ^ ex)
        | _ => none
  | _ =>
      if ic == 0 then none
      else
        match parseExpPart r1 with
        | some (ex, []) => some ((i : ℚ) * (10 : ℚ) ^ ex)
        | _ => none

/-- `ToNumber` on a string (`StringToNumber`): trim; empty is `0`;
`0x`/`0o`/`0b` integer literals (sign not allowed before them); otherwise
an optional sign followed by `Infinity` or a decimal literal; everything
else is `NaN`. -/
def stringToNumber (s : String) : JsNumber :=
  match jsTrim s.data with
  | [] => JsNumber.finite 0
  | '0' :: 'x' :: r => radixNumber 16 r
  | '0' :: 'X' :: r => radixNumber 16 r
  | '0' :: 'o' :: r => radixNumber 8 r
  | '0' :: 'O' :: r => radixNumber 8 r
  | '0' :: 'b' :: r => radixNumber 2 r
  | '0' :: 'B' :: r => radixNumber 2 r
  | t =>
      let (sgn, t1) : Bool × List Char :=
        match t with
        | '+' :: r => (false, r)
        | '-' :: r => (true, r)
        | _ => (false, t)
      if t1 == "Infinity".data then
        (if sgn then JsNumber.negInf else JsNumber.posInf)
      else
        match strDecimalValue t1 with
        | some q => JsNumber.finite (if sgn then -q else q)
        | none => JsNumber.nan

/-- `ToNumber` of an array element in the `Array.prototype.join` sense
(`ToString` of the element, then `StringToNumber` of the join): a number
round-trips to itself, `null` joins as the empty string (0), booleans and
objects join as non-numeric words (`NaN`), a nested array joins as its own
join.  A join of two or more elements contains a comma and is never
numeric.  Fueled by `sizeOf`, which bounds the nesting depth. -/
def arrayElemNumber : ℕ → JsValue → JsNumber
  | 0, _ => JsNumber.nan
  | fuel + 1, v =>
      match v with
      | JsValue.num q => JsNumber.finite q
      | JsValue.str s => stringToNumber s
      | JsValue.null => JsNumber.finite 0
      | JsValue.bool _ => JsNumber.nan
      | JsValue.obj _ => JsNumber.nan
      | JsValue.arr [] => JsNumber.finite 0
      | JsValue.arr [x] => arrayElemNumber fuel x
      | JsValue.arr _ => JsNumber.nan

/-- `ToNumber` as `payload.exp > currentTime` applies it: a number is
itself, a string goes through `StringToNumber`, `true`/`false` are 1/0,
`null` is 0, a plain object is `NaN` (via `"[object Object]"`), an array
is the number of its join.  `fuel` bounds the depth of singleton-array
unwrapping; callers pass one more than the length of the JSON text the
value was parsed from, which bounds every parsed value's depth (each
nesting level consumed at least one character). -/
def jsToNumber (fuel : ℕ) : JsValue → JsNumber
  | JsValue.num q => JsNumber.finite q
  | JsValue.str s => stringToNumber s
  | JsValue.bool b => JsNumber.finite (if b then 1 else 0)
  | JsValue.null => JsNumber.finite 0
  | JsValue.obj _ => JsNumber.nan
  | JsValue.arr l => arrayElemNumber fuel (JsValue.arr l)

/-- The JavaScript comparison `n > now` for a number against an integer
time: false for `NaN`, the obvious answers for the infinities. -/
def jsNumberGtInt : JsNumber → ℤ → Bool
  | JsNumber.finite q, now => decide ((now : ℚ) < q)
  | JsNumber.posInf, _ => true
  | JsNumber.negInf, _ => false
  | JsNumber.nan, _ => false

/-- JavaScript `token.split('.')`: maximal runs between dots, with empty
runs kept (`"" ↦ [""]`, `"a..b" ↦ ["a", "", "b"]`). -/
def splitOnDotChars : List Char → List (List Char)
  | [] => [[]]
  | c :: rest =>
      match splitOnDotChars rest with
      | [] => [[c]]
      | h :: t => if c == '.' then [] :: h :: t else (c :: h) :: t

/-- `token.split('.')` on strings. -/
def jsSplitDot (token : String) : List String :=
  (splitOnDotChars token.data).map String.mk

/-- The `exp` claim a JWT's payload yields through `isTokenValid`'s pipeline
(`token.split('.')[1]`, URL-safe character replacement, `base64Decode`,
`JSON.parse`, `payload.exp` coerced by `ToNumber`): `none` whenever a step
throws or `exp` is absent (`undefined`), `some .nan` when `exp` does not
convert to a number — in both of those cases `isTokenValid` is false. -/
def jwtExpClaim (token : String) : Option JsNumber :=
  match (jsSplitDot token).get? 1 with
  | none => none
  | some base64Url =>
      let base64 := String.mk (base64Url.data.map
        (fun ch => if ch == '-' then '+' else if ch == '_' then '/' else ch))
      let decoded := base64Decode base64
      match jsonParseObject decoded with
      | none => none
      | some payload =>
          match jsLookup "exp" payload with
          | none => none
          | some v => some (jsToNumber (decoded.data.length + 1) v)

/-- `ApiAuthService.isTokenValid(token)`, with `currentTime =
Math.floor(Date.now() / 1000)` passed explicitly: `payload.exp >
currentTime`, and `false` whenever the try block throws or `exp` is
`undefined`. -/
def isTokenValid (token : String) (now : ℤ) : Bool :=
  match jwtExpClaim token with
  | some n => jsNumberGtInt n now
  | none => false

/-- `LoginResponse` interface of apiAuth.ts. -/
structure LoginResponse where
  companies : String
  role : String
  jwt : String
  name : String
  id : String
  companiesId : String
deriving DecidableEq, Repr

/-- The two AsyncStorage keys the service uses.  AsyncStorage holds strings
(`auth_token ↦ jwt`, `user_data ↦ JSON.stringify(userData)`) and
`getUserData` re-parses; since `stringify ∘ parse` is the identity on these
flat string records, the model stores the record itself. -/
structure AuthStorage where
  authToken : Option String
  userData : Option LoginResponse
deriving DecidableEq, Repr

/-- `ApiAuthService.storeAuthData(userData)` (`AsyncStorage.multiSet`). -/
def storeAuthData (u : LoginResponse) (_s : AuthStorage) : AuthStorage :=
  { authToken := some u.jwt, userData := some u }

/-- `ApiAuthService.getAuthToken()`. -/
def getAuthToken (s : AuthStorage) : Option String :=
  s.authToken

/-- `ApiAuthService.getUserData()`. -/
def getUserData (s : AuthStorage) : Option LoginResponse :=
  s.userData

/-- `ApiAuthService.isAuthenticated()`: false when either stored item is
falsy (a missing item, or an empty token string), else `isTokenValid`. -/
def isAuthenticated (s : AuthStorage) (now : ℤ) : Bool :=
  match getAuthToken s, getUserData s with
  | some token, some _ =>
      if token.data.isEmpty then false else isTokenValid token now
  | _, _ => false

/-- Outcome of the `fetch` against `/auth/login`: `response.ok` with a JSON
body that parses as a `LoginResponse`, or a non-ok status with error text. -/
inductive LoginHttpResult where
  | success (body : LoginResponse)
  | failure (status : ℕ) (errorText : String)

/-- `ApiAuthService.login(credentials)`: on a non-ok response it throws
`Login failed: <status> - <text>`; on success it stores the auth data and
returns the user.  (`createFirebaseSession` only logs, and a failure of
`driverRouteService.initializeDriverRoute` is swallowed by its own catch;
neither affects the returned user or the stored data.) -/
def login (resp : LoginHttpResult) (s : AuthStorage) :
    Except String (LoginResponse × AuthStorage) :=
  match resp with
  | .failure status txt => Except.error s!"Login failed: {status} - {txt}"
  | .success userData => Except.ok (userData, storeAuthData userData s)

/-! ### Reference base64url decoding (for comparison with `base64Decode`)

`base64Decode`'s alphabet has 64 characters, yet the loop guards compare the
looked-up indices against 64 — the tell-tale of the classic 65-character
table ending in `'='`.  With the character `'='` missing, every padded
input decodes its final block through index `-1` into `0xFF` bytes.  To
state what that costs, the spec's words "the token's exp claim"
(a JWT's standard RFC 7519 / RFC 4648 base64url payload) are embedded as a
clearly separate reference definition. -/

/-- The base64url alphabet of RFC 4648 §5. -/
def b64urlChars : List Char :=
  "ABCDEFGHIJKLMNOPQRSTUVWXYZabcdefghijklmnopqrstuvwxyz0123456789-_".data

/-- Value of a base64url character, `none` for a character outside the
alphabet. -/
def b64UrlCharVal (c : Char) : Option ℕ :=
  b64urlChars.findIdx? (fun x => x == c)

/-- Standard padding-free base64url decoding: 4 characters to 3 bytes, a
final group of 3 to 2 bytes, of 2 to 1 byte. -/
def b64UrlDecodeBytes : List Char → Option (List ℕ)
  | [] => some []
  | [_] => none
  | [c1, c2] =>
      match b64UrlCharVal c1, b64UrlCharVal c2 with
      | some v1, some v2 => some [((v1 <<< 6) ||| v2) >>> 4]
      | _, _ => none
  | [c1, c2, c3] =>
      match b64UrlCharVal c1, b64UrlCharVal c2, b64UrlCharVal c3 with
      | some v1, some v2, some v3 =>
          let bits := (v1 <<< 12) ||| (v2 <<< 6) ||| v3
          some [(bits >>> 10) &&& 255, (bits >>> 2) &&& 255]
      | _, _, _ => none
  | c1 :: c2 :: c3 :: c4 :: rest =>
      match b64UrlCharVal c1, b64UrlCharVal c2, b64UrlCharVal c3,
          b64UrlCharVal c4, b64UrlDecodeBytes rest with
      | some v1, some v2, some v3, some v4, some tail =>
          let bits := (v1 <<< 18) ||| (v2 <<< 12) ||| (v3 <<< 6) ||| v4
          some ([(bits >>> 16) &&& 255, (bits >>> 8) &&& 255, bits &&& 255]
            ++ tail)
      | _, _, _, _, _ => none

/-- The `exp` claim of a JWT as the spec's words mean it: the second
dot-separated segment decoded as standard base64url, parsed as JSON, and
its `exp` member read as a number.  Reference definition, deliberately
independent of the service's `base64Decode`. -/
def jwtExpClaimStandard (token : String) : Option JsNumber :=
  match (jsSplitDot token).get? 1 with
  | none => none
  | some seg =>
      match b64UrlDecodeBytes seg.data with
      | none => none
      | some bytes =>
          let decoded := String.mk (bytes.map Char.ofNat)
          match jsonParseObject decoded with
          | none => none
          | some payload =>
              match jsLookup "exp" payload with
              | none => none
              | some v => some (jsToNumber (decoded.data.length + 1) v)

/-! ### Haversine distance

`LocationService.calculateDistance` (src/services/location.ts, lines
212–225), duplicated near-identically as
`LocationEmulatorService.calculateDistance` (src/services/locationEmulator.ts,
lines 303–316) and `TripService.haversineDistance` (src/services/apiAuth.ts,
lines 613–626).  `Math.sin` / `Math.cos` / `Math.atan2` / `Math.sqrt` are
modelled by their real-number counterparts. -/

/-- A pair of coordinates as the distance functions consume it. -/
structure GeoPoint where
  latitude : ℝ
  longitude : ℝ

/-- `private toRad(value) { return (value * Math.PI) / 180 }`. -/
noncomputable def toRad (v : ℝ) : ℝ :=
  v * Real.pi / 180

/-- `Math.atan2(y, x)`. -/
noncomputable def atan2 (y x : ℝ) : ℝ :=
  if 0 < x then Real.arctan (y / x)
  else if x < 0 then
    (if 0 ≤ y then Real.arctan (y / x) + Real.pi
     else Real.arctan (y / x) - Real.pi)
  else
    (if 0 < y then Real.pi / 2
     else if y < 0 then -(Real.pi / 2)
     else 0)

/-- The intermediate
`a = sin(dLat/2)·sin(dLat/2) + sin(dLon/2)·sin(dLon/2)·cos(lat1)·cos(lat2)`. -/
noncomputable def haversineA (p1 p2 : GeoPoint) : ℝ :=
  Real.sin (toRad (p2.latitude - p1.latitude) / 2) *
      Real.sin (toRad (p2.latitude - p1.latitude) / 2) +
    Real.sin (toRad (p2.longitude - p1.longitude) / 2) *
        Real.sin (toRad (p2.longitude - p1.longitude) / 2) *
        Real.cos (toRad p1.latitude) * Real.cos (toRad p2.latitude)

/-- `calculateDistance(point1, point2)`: `R * c` with `R = 6371` km and
`c = 2 * atan2(sqrt(a), sqrt(1 - a))`. -/
noncomputable def calculateDistance (p1 p2 : GeoPoint) : ℝ :=
  6371 * (2 * atan2 (Real.sqrt (haversineA p1 p2))
    (Real.sqrt (1 - haversineA p1 p2)))

/-! ### retryOperation (src/utils/errorHandler.ts, lines 101–121)

`for (let i = 0; i < maxRetries; i++) { try { return await operation() }
catch { if (i < maxRetries - 1) await sleep(delayMs * (i + 1)) } }` —
defaults `maxRetries = 3`, `delayMs = 1000`.  The model returns the list of
sleeps performed, in order, and whether some attempt succeeded.  `outcome i`
is whether attempt `i` succeeds.  (The function is exported but has no call
site in the repository.) -/

/-- The retry loop from iteration `i` on; `remaining = maxRetries - i`
iterations are left. -/
def retryOperationRun (outcome : ℕ → Bool) (maxRetries delayMs i : ℕ) :
    ℕ → List ℕ × Bool
  | 0 => ([], false)
  | remaining + 1 =>
      if outcome i then ([], true)
      else
        let tail := retryOperationRun outcome maxRetries delayMs (i + 1)
          remaining
        ((if i < maxRetries - 1 then [delayMs * (i + 1)] else []) ++ tail.1,
          tail.2)

/-- `retryOperation(operation, maxRetries, delayMs)`: the delays slept
between attempts, and whether the operation eventually succeeded (on
`false` the final `throw lastError` fires). -/
def retryOperation (outcome : ℕ → Bool) (maxRetries delayMs : ℕ) :
    List ℕ × Bool :=
  retryOperationRun outcome maxRetries delayMs 0 maxRetries

/-! ### RuntimeSafeWrapper dimensions retry
(src/components/RuntimeSafeWrapper.tsx, lines 44–75, mounted by
App.original.tsx)

`let retries = 0; while (!dimensions && retries < maxRetries) { try {
Dimensions.get('window') … } catch { retries++; if (retries < maxRetries)
await sleep(Math.pow(2, retries) * 100) } }` with `maxRetries = 10` —
an explicitly-commented exponential backoff.  (A further retry loop, the
`getSafeDimensions` helper of the safe-dimensions hook, re-attempts 5
times with a constant 10 ms busy-wait — a retry without increasing
delay.) -/

/-- The wrapper's while loop from retry count `retries` on, fueled by the
remaining iterations; `outcome i` is whether attempt `i` obtains valid
dimensions.  Returns the sleeps performed and whether an attempt
succeeded. -/
def dimensionsRetryRun (outcome : ℕ → Bool) (maxRetries : ℕ) :
    ℕ → ℕ → List ℕ × Bool
  | _, 0 => ([], false)
  | retries, fuel + 1 =>
      if retries < maxRetries then
        if outcome retries then ([], true)
        else
          let tail := dimensionsRetryRun outcome maxRetries (retries + 1) fuel
          ((if retries + 1 < maxRetries then [2 ^ (retries + 1) * 100]
            else []) ++ tail.1, tail.2)
      else ([], false)

/-- The whole dimensions retry loop (`maxRetries = 10`). -/
def dimensionsRetry (outcome : ℕ → Bool) : List ℕ × Bool :=
  dimensionsRetryRun outcome 10 0 10

/-! ### Concrete sample data used by witnesses and counterexamples -/

/-- The trip map after `createTrip(100)` (trip id `trip_100_mock`). -/
def tripsAfterCreate : TripMap :=
  (createTrip 100 none []).2

/-- ... after `startTrip(200, "trip_100_mock")`. -/
def tripsAfterStart : TripMap :=
  (startTrip 200 "trip_100_mock" ⟨0, 0⟩ tripsAfterCreate).toOption.getD []

/-- A placeholder trip used only as a `getD` default below (never hit:
every extraction is on a call that succeeds). -/
def dummyTrip : Trip :=
  (createTrip 0 none []).1

/-- Result of `endTrip(300, "trip_100_mock")` on the started map: the
completed trip and the updated map. -/
def endResult : Trip × TripMap :=
  (endTrip 300 "trip_100_mock" ⟨1, 1⟩ none tripsAfterStart).toOption.getD
    (dummyTrip, [])

/-- ... after `endTrip(300, "trip_100_mock")`: the trip is completed. -/
def tripsAfterEnd : TripMap :=
  endResult.2

/-- Result of `endTrip(300, "trip_100_mock")` straight on the created map
(used by the C8 witness, whose start and end act on the same base map). -/
def endResultFromCreate : Trip × TripMap :=
  (endTrip 300 "trip_100_mock" ⟨1, 1⟩ none tripsAfterCreate).toOption.getD
    (dummyTrip, [])

/-- ... after calling `startTrip` again on the already-completed trip. -/
def tripsAfterRestart : TripMap :=
  (startTrip 400 "trip_100_mock" ⟨2, 2⟩ tripsAfterEnd).toOption.getD []

/-- A sample driver record whose JWT has payload `{"exp":9}` (no base64
padding needed). -/
def sampleUserExp9 : LoginResponse :=
  ⟨"", "driver", "x.eyJleHAiOjl9", "Demo", "1", ""⟩

/-- A sample driver record whose JWT has payload `{"exp":99}`, whose
base64url form `eyJleHAiOjk5fQ` needs padding. -/
def sampleUserExp99 : LoginResponse :=
  ⟨"", "driver", "x.eyJleHAiOjk5fQ", "Demo", "1", ""⟩

/-!
## Theorems

First the helper lemmas shared between claims, then one theorem per claim
(with its witness or counterexample).
-/

theorem tripsGet_set_same (ts : TripMap) (k : String) (v : Trip) :
    tripsGet (tripsSet ts k v) k = some v := by
  induction ts with
  | nil => simp [tripsSet, tripsGet, List.find?]
  | cons kv rest ih =>
    by_cases h : kv.1 == k
    · simp [tripsSet, h, tripsGet, List.find?]
    · simp only [tripsSet, h]
      simp only [tripsGet, List.find?] at ih ⊢
      simp [h, ih]

theorem recordFailedUpdates_eq (t : String) (cs : List Coordinate)
    (s : TripLocationState) :
    recordFailedUpdates t cs s =
      { s with pendingUpdates := s.pendingUpdates ++ cs } := by
  induction cs generalizing s with
  | nil => simp [recordFailedUpdates]
  | cons c rest ih =>
    show recordFailedUpdates t rest
        ((updateCurrentLocation false t c s).2) = _
    rw [ih]
    simp [updateCurrentLocation]

theorem retryPendingUpdatesLoop_all_ok (ok : Coordinate → Bool) (t : String)
    (cs : List Coordinate) (s : TripLocationState)
    (h : ∀ c ∈ cs, ok c = true) :
    retryPendingUpdatesLoop ok t cs s =
      { s with writes := s.writes ++ cs.map (fun c => (t, c)) } := by
  induction cs generalizing s with
  | nil => simp [retryPendingUpdatesLoop]
  | cons c rest ih =>
    have hc : ok c = true := h c (List.mem_cons_self _ _)
    simp only [retryPendingUpdatesLoop, updateCurrentLocation, hc, if_pos]
    rw [ih _ (fun x hx => h x (List.mem_cons_of_mem _ hx))]
    simp

theorem retryPendingUpdatesLoop_all_fail (ok : Coordinate → Bool) (t : String)
    (cs : List Coordinate) (s : TripLocationState)
    (h : ∀ c ∈ cs, ok c = false) :
    retryPendingUpdatesLoop ok t cs s =
      { s with pendingUpdates :=
          s.pendingUpdates ++ cs.flatMap (fun c => [c, c]) } := by
  induction cs generalizing s with
  | nil => simp [retryPendingUpdatesLoop]
  | cons c rest ih =>
    have hc : ok c = false := h c (List.mem_cons_self _ _)
    simp only [retryPendingUpdatesLoop, updateCurrentLocation, hc,
      Bool.false_eq_true, if_neg, ite_false]
    rw [ih _ (fun x hx => h x (List.mem_cons_of_mem _ hx))]
    simp

theorem retryPendingUpdates_all_ok (t : String) (s : TripLocationState)
    (h1 : s.currentTripId = some t) (ht : t.data.isEmpty = false) :
    retryPendingUpdates (fun _ => true) s =
      { s with pendingUpdates := []
               writes := s.writes ++
                 s.pendingUpdates.map (fun c => (t, c)) } := by
  rcases s with ⟨p, tid, w⟩
  simp only at h1
  subst h1
  cases p with
  | nil => simp [retryPendingUpdates]
  | cons c rest =>
    simp only [retryPendingUpdates, tripIdUnset, ht, List.length_cons]
    rw [retryPendingUpdatesLoop_all_ok _ _ _ _ (fun _ _ => rfl)]
    simp

/-- C1: after N consecutive failed location updates (each failure appending
its coordinate to `pendingUpdates`) and with connectivity restored (every
retry write succeeds), one call to `retryPendingUpdates` empties the queue
and submits exactly the N queued coordinates, in insertion order. -/
theorem retryPendingUpdates_drains_in_order (t : String)
    (cs : List Coordinate) (s0 : TripLocationState)
    (h0 : s0.pendingUpdates = []) (h1 : s0.currentTripId = some t)
    (ht : t.data.isEmpty = false) :
    (recordFailedUpdates t cs s0).pendingUpdates = cs ∧
    retryPendingUpdates (fun _ => true) (recordFailedUpdates t cs s0) =
      { recordFailedUpdates t cs s0 with
        pendingUpdates := []
        writes := (recordFailedUpdates t cs s0).writes ++
          cs.map (fun c => (t, c)) } := by
  have hrec := recordFailedUpdates_eq t cs s0
  have hp : (recordFailedUpdates t cs s0).pendingUpdates = cs := by
    rw [hrec]; simp [h0]
  refine ⟨hp, ?_⟩
  rw [retryPendingUpdates_all_ok t _ (by rw [hrec]; exact h1) ht, hp]

/-- Witness for C1 at two queued coordinates. -/
theorem retryPendingUpdates_drains_in_order_witness :
    (recordFailedUpdates "t" [⟨1, 2, 3⟩, ⟨4, 5, 6⟩]
      ⟨[], some "t", []⟩).pendingUpdates = [⟨1, 2, 3⟩, ⟨4, 5, 6⟩] ∧
    retryPendingUpdates (fun _ => true)
        (recordFailedUpdates "t" [⟨1, 2, 3⟩, ⟨4, 5, 6⟩] ⟨[], some "t", []⟩) =
      { recordFailedUpdates "t" [⟨1, 2, 3⟩, ⟨4, 5, 6⟩] ⟨[], some "t", []⟩ with
        pendingUpdates := []
        writes := (recordFailedUpdates "t" [⟨1, 2, 3⟩, ⟨4, 5, 6⟩]
            ⟨[], some "t", []⟩).writes ++
          [⟨1, 2, 3⟩, ⟨4, 5, 6⟩].map (fun c => ("t", c)) } :=
  retryPendingUpdates_drains_in_order "t" [⟨1, 2, 3⟩, ⟨4, 5, 6⟩]
    ⟨[], some "t", []⟩ rfl rfl (by decide)

/-- C2 counterexample: a queued coordinate whose retry fails again is
re-queued twice by one `retryPendingUpdates` call, not exactly once —
`updateCurrentLocation`'s catch pushes it and the retry loop's catch pushes
it a second time. -/
theorem retry_requeues_twice_counterexample :
    (retryPendingUpdates (fun _ => false)
        ⟨[⟨1, 2, 3⟩], some "t", []⟩).pendingUpdates =
      [⟨1, 2, 3⟩, ⟨1, 2, 3⟩] ∧
    ¬ (retryPendingUpdates (fun _ => false)
        ⟨[⟨1, 2, 3⟩], some "t", []⟩).pendingUpdates.count ⟨1, 2, 3⟩ = 1 := by
  decide

/-- C2 (amended): when a write fails, `updateCurrentLocation` appends the
coordinate to `pendingUpdates` and propagates the error; and during
`retryPendingUpdates`, every coordinate whose retry fails again is
re-queued twice per failed attempt (once by `updateCurrentLocation`'s own
catch, once by the retry loop's catch). -/
theorem updateCurrentLocation_queue_behavior (ok : Coordinate → Bool)
    (t : String) (c : Coordinate) (s sr : TripLocationState)
    (hfail : ∀ x ∈ sr.pendingUpdates, ok x = false)
    (h1 : sr.currentTripId = some t) (ht : t.data.isEmpty = false) :
    updateCurrentLocation false t c s =
      (Except.error (),
        { s with pendingUpdates := s.pendingUpdates ++ [c] }) ∧
    (retryPendingUpdates ok sr).pendingUpdates =
      sr.pendingUpdates.flatMap (fun x => [x, x]) := by
  refine ⟨rfl, ?_⟩
  rcases sr with ⟨p, tid, w⟩
  simp only at h1 hfail
  subst h1
  cases p with
  | nil => simp [retryPendingUpdates]
  | cons c0 rest =>
    simp only [retryPendingUpdates, tripIdUnset, ht, List.length_cons]
    rw [retryPendingUpdatesLoop_all_fail _ _ _ _ hfail]
    simp

/-- Witness for the amended C2. -/
theorem updateCurrentLocation_queue_behavior_witness :
    updateCurrentLocation false "t" ⟨7, 8, 9⟩ ⟨[], some "t", []⟩ =
      (Except.error (), ⟨[⟨7, 8, 9⟩], some "t", []⟩) ∧
    (retryPendingUpdates (fun _ => false)
        ⟨[⟨1, 2, 3⟩, ⟨4, 5, 6⟩], some "t", []⟩).pendingUpdates =
      [⟨1, 2, 3⟩, ⟨4, 5, 6⟩].flatMap (fun x => [x, x]) :=
  updateCurrentLocation_queue_behavior (fun _ => false) "t" ⟨7, 8, 9⟩
    ⟨[], some "t", []⟩ ⟨[⟨1, 2, 3⟩, ⟨4, 5, 6⟩], some "t", []⟩
    (fun _ _ => rfl) rfl (by decide)

/-- C10: when the queue is empty or no current trip id is set,
`retryPendingUpdates` returns without attempting any write and leaves the
whole service state (queue, trip id, write log) unchanged. -/
theorem retryPendingUpdates_noop (ok : Coordinate → Bool)
    (s : TripLocationState)
    (h : s.pendingUpdates = [] ∨ s.currentTripId = none) :
    retryPendingUpdates ok s = s ∧
    getPendingUpdatesCount (retryPendingUpdates ok s) =
      getPendingUpdatesCount s := by
  have hid : retryPendingUpdates ok s = s := by
    unfold retryPendingUpdates
    rcases h with h | h
    · simp [h]
    · simp [h, tripIdUnset]
  exact ⟨hid, by rw [hid]⟩

/-- Witness for C10 on a nonempty queue with no current trip. -/
theorem retryPendingUpdates_noop_witness :
    retryPendingUpdates (fun _ => true) ⟨[⟨1, 2, 3⟩], none, []⟩ =
      ⟨[⟨1, 2, 3⟩], none, []⟩ ∧
    getPendingUpdatesCount
        (retryPendingUpdates (fun _ => true) ⟨[⟨1, 2, 3⟩], none, []⟩) =
      getPendingUpdatesCount ⟨[⟨1, 2, 3⟩], none, []⟩ :=
  retryPendingUpdates_noop (fun _ => true) ⟨[⟨1, 2, 3⟩], none, []⟩
    (Or.inr rfl)

/-- C8 counterexample: after `createTrip` → `startTrip` → `endTrip`, a
further `startTrip` call on the completed trip moves its status backwards,
from `completed` back to `active`. -/
theorem trip_lifecycle_counterexample :
    (tripsGet tripsAfterEnd "trip_100_mock").map Trip.status =
      some TripStatus.completed ∧
    (tripsGet tripsAfterRestart "trip_100_mock").map Trip.status =
      some TripStatus.active ∧
    statusRank TripStatus.active < statusRank TripStatus.completed := by
  refine ⟨by decide, by decide, by decide⟩

/-- C8 (amended): `createTrip` initializes a trip as `pending`, a
successful `startTrip` leaves it `active` and a successful `endTrip`
leaves it `completed`; but no operation guards on the current status, so
the order is not preserved (see the counterexample: `startTrip` on a
completed trip moves it back to `active`). -/
theorem trip_lifecycle (now now' now'' : ℕ) (dest : Option MockLocation)
    (ts : TripMap) (tid : String) (loc loc' : MockLocation)
    (notes : Option String) (ts2 : TripMap) (tr : Trip) (ts3 : TripMap)
    (h2 : startTrip now' tid loc ts = Except.ok ts2)
    (h3 : endTrip now'' tid loc' notes ts = Except.ok (tr, ts3)) :
    (createTrip now dest ts).1.status = TripStatus.pending ∧
    (tripsGet (createTrip now dest ts).2 (createTrip now dest ts).1.id).map
      Trip.status = some TripStatus.pending ∧
    (tripsGet ts2 tid).map Trip.status = some TripStatus.active ∧
    tr.status = TripStatus.completed ∧
    (tripsGet ts3 tid).map Trip.status = some TripStatus.completed := by
  refine ⟨rfl, ?_, ?_, ?_, ?_⟩
  · simp [createTrip, tripsGet_set_same]
  · cases hget : tripsGet ts tid with
    | none => rw [startTrip, hget] at h2; exact absurd h2 (by simp)
    | some trip0 =>
        rw [startTrip, hget] at h2
        simp only [Except.ok.injEq] at h2
        rw [← h2, tripsGet_set_same]
        rfl
  · cases hget : tripsGet ts tid with
    | none => rw [endTrip, hget] at h3; exact absurd h3 (by simp)
    | some trip0 =>
        rw [endTrip, hget] at h3
        simp only [Except.ok.injEq, Prod.mk.injEq] at h3
        rw [← h3.1]
  · cases hget : tripsGet ts tid with
    | none => rw [endTrip, hget] at h3; exact absurd h3 (by simp)
    | some trip0 =>
        rw [endTrip, hget] at h3
        simp only [Except.ok.injEq, Prod.mk.injEq] at h3
        rw [← h3.2, tripsGet_set_same]
        rfl

/-- Witness for the amended C8 on the concrete sample trip. -/
theorem trip_lifecycle_witness :
    (createTrip 100 none tripsAfterCreate).1.status = TripStatus.pending ∧
    (tripsGet (createTrip 100 none tripsAfterCreate).2
        (createTrip 100 none tripsAfterCreate).1.id).map Trip.status =
      some TripStatus.pending ∧
    (tripsGet tripsAfterStart "trip_100_mock").map Trip.status =
      some TripStatus.active ∧
    endResultFromCreate.1.status = TripStatus.completed ∧
    (tripsGet endResultFromCreate.2 "trip_100_mock").map Trip.status =
      some TripStatus.completed :=
  trip_lifecycle 100 200 300 none tripsAfterCreate "trip_100_mock"
    ⟨0, 0⟩ ⟨1, 1⟩ none tripsAfterStart endResultFromCreate.1
    endResultFromCreate.2 rfl rfl

/-- C4: a token whose decoded payload carries a (finite) `exp` at or
before the current Unix time is rejected by `isTokenValid`, and
`isAuthenticated` is then false for a user with that stored token. -/
theorem isTokenValid_rejects_expired (token : String) (now : ℤ) (e : ℚ)
    (u : LoginResponse) (hdec : jwtExpClaim token = some (JsNumber.finite e))
    (hexp : e ≤ (now : ℚ)) :
    isTokenValid token now = false ∧
    isAuthenticated ⟨some token, some u⟩ now = false := by
  have h1 : isTokenValid token now = false := by
    unfold isTokenValid
    rw [hdec]
    show decide ((now : ℚ) < e) = false
    exact decide_eq_false (not_lt.mpr hexp)
  refine ⟨h1, ?_⟩
  show (if token.data.isEmpty then false else isTokenValid token now) = false
  by_cases hemp : token.data.isEmpty <;> simp [hemp, h1]

/-- Witness for C4: the token with payload `{"exp":9}` at time 1000. -/
theorem isTokenValid_rejects_expired_witness :
    jwtExpClaim "x.eyJleHAiOjl9" = some (JsNumber.finite 9) ∧
    (9 : ℚ) ≤ ((1000 : ℤ) : ℚ) ∧
    isTokenValid "x.eyJleHAiOjl9" 1000 = false ∧
    isAuthenticated ⟨some "x.eyJleHAiOjl9", some sampleUserExp9⟩ 1000 =
      false :=
  have h := isTokenValid_rejects_expired "x.eyJleHAiOjl9" 1000 9
    sampleUserExp9 (by with_unfolding_all decide) (by with_unfolding_all decide)
  ⟨by with_unfolding_all decide, by with_unfolding_all decide, h.1, h.2⟩

/-- C9: the validity check and `isAuthenticated` are total Boolean
functions (every throw inside the try blocks is caught), and on any token
the decode pipeline cannot make sense of — no `'.'` separator, invalid
base64, a non-JSON payload, a payload without `exp`, or an `exp` that does
not convert to a number (`NaN`) — both return `false`. -/
theorem isTokenValid_malformed_safe (token : String) (now : ℤ)
    (u : LoginResponse)
    (h : jwtExpClaim token = none ∨ jwtExpClaim token = some JsNumber.nan) :
    isTokenValid token now = false ∧
    isAuthenticated ⟨some token, some u⟩ now = false := by
  have h1 : isTokenValid token now = false := by
    rcases h with h | h <;> simp [isTokenValid, h, jsNumberGtInt]
  refine ⟨h1, ?_⟩
  show (if token.data.isEmpty then false else isTokenValid token now) = false
  by_cases hemp : token.data.isEmpty <;> simp [hemp, h1]

/-- Witness for C9 on five malformed tokens: no `'.'`, base64 garbage, a
payload without `exp`, a string `exp` that is not numeric
(`{"exp":"abcde"}`), and an array `exp` whose join is not numeric
(`{"exp":[1,2,3]}`). -/
theorem isTokenValid_malformed_safe_witness :
    (jwtExpClaim "notajwt" = none ∧
      isTokenValid "notajwt" 0 = false ∧
      isAuthenticated ⟨some "notajwt", some sampleUserExp9⟩ 0 = false) ∧
    (jwtExpClaim "x.!!!!" = none ∧
      isTokenValid "x.!!!!" 0 = false ∧
      isAuthenticated ⟨some "x.!!!!", some sampleUserExp9⟩ 0 = false) ∧
    (jwtExpClaim "x.eyJmb28iOjF9" = none ∧
      isTokenValid "x.eyJmb28iOjF9" 0 = false ∧
      isAuthenticated ⟨some "x.eyJmb28iOjF9", some sampleUserExp9⟩ 0 =
        false) ∧
    (jwtExpClaim "x.eyJleHAiOiJhYmNkZSJ9" = some JsNumber.nan ∧
      isTokenValid "x.eyJleHAiOiJhYmNkZSJ9" 0 = false ∧
      isAuthenticated ⟨some "x.eyJleHAiOiJhYmNkZSJ9", some sampleUserExp9⟩
        0 = false) ∧
    (jwtExpClaim "x.eyJleHAiOlsxLDIsM119" = some JsNumber.nan ∧
      isTokenValid "x.eyJleHAiOlsxLDIsM119" 0 = false ∧
      isAuthenticated ⟨some "x.eyJleHAiOlsxLDIsM119", some sampleUserExp9⟩
        0 = false) :=
  have h1 := isTokenValid_malformed_safe "notajwt" 0 sampleUserExp9
    (Or.inl (by with_unfolding_all decide))
  have h2 := isTokenValid_malformed_safe "x.!!!!" 0 sampleUserExp9
    (Or.inl (by with_unfolding_all decide))
  have h3 := isTokenValid_malformed_safe "x.eyJmb28iOjF9" 0 sampleUserExp9
    (Or.inl (by with_unfolding_all decide))
  have h4 := isTokenValid_malformed_safe "x.eyJleHAiOiJhYmNkZSJ9" 0
    sampleUserExp9 (Or.inr (by with_unfolding_all decide))
  have h5 := isTokenValid_malformed_safe "x.eyJleHAiOlsxLDIsM119" 0
    sampleUserExp9 (Or.inr (by with_unfolding_all decide))
  ⟨⟨by with_unfolding_all decide, h1.1, h1.2⟩,
    ⟨by with_unfolding_all decide, h2.1, h2.2⟩,
    ⟨by with_unfolding_all decide, h3.1, h3.2⟩,
    ⟨by with_unfolding_all decide, h4.1, h4.2⟩,
    ⟨by with_unfolding_all decide, h5.1, h5.2⟩⟩

/-- C5 (code bug): a successful login returns the user record and persists
the JWT and user data, but `isAuthenticated` does not stay true until the
token's `exp` passes.  The JWT below carries payload `{"exp":99}` — by
standard base64url decoding its `exp` claim is 99, still in the future at
time 0 — yet the service's own `base64Decode` (whose 64-character alphabet
is missing the `'='` its guards compare against) garbles the padded final
block, `JSON.parse` throws, and `isAuthenticated` is false immediately
after login. -/
theorem login_expiry_code_bug :
    login (.success sampleUserExp99) ⟨none, none⟩ =
      Except.ok (sampleUserExp99,
        ⟨some "x.eyJleHAiOjk5fQ", some sampleUserExp99⟩) ∧
    jwtExpClaimStandard "x.eyJleHAiOjk5fQ" = some (JsNumber.finite 99) ∧
    (0 : ℤ) < 99 ∧
    jwtExpClaim "x.eyJleHAiOjk5fQ" = none ∧
    isAuthenticated ⟨some "x.eyJleHAiOjk5fQ", some sampleUserExp99⟩ 0 =
      false :=
  ⟨rfl, by with_unfolding_all decide, by decide,
    by with_unfolding_all decide, by with_unfolding_all decide⟩

theorem toRad_sub_neg (u v : ℝ) : toRad (u - v) / 2 = -(toRad (v - u) / 2) := by
  unfold toRad
  ring

theorem sin_sq_toRad_sub_comm (u v : ℝ) :
    Real.sin (toRad (u - v) / 2) * Real.sin (toRad (u - v) / 2) =
      Real.sin (toRad (v - u) / 2) * Real.sin (toRad (v - u) / 2) := by
  rw [toRad_sub_neg u v, Real.sin_neg]
  ring

theorem haversineA_symm (p q : GeoPoint) : haversineA p q = haversineA q p := by
  unfold haversineA
  rw [sin_sq_toRad_sub_comm q.latitude p.latitude,
    sin_sq_toRad_sub_comm q.longitude p.longitude]
  ring

/-- C6: the Haversine distance is symmetric,
`calculateDistance(A, B) = calculateDistance(B, A)`. -/
theorem calculateDistance_symm (p q : GeoPoint) :
    calculateDistance p q = calculateDistance q p := by
  unfold calculateDistance
  rw [haversineA_symm]

theorem haversineA_self (p : GeoPoint) : haversineA p p = 0 := by
  unfold haversineA toRad
  simp

/-- C7: the Haversine distance of a point to itself is 0,
`calculateDistance(A, A) = 0`. -/
theorem calculateDistance_self (p : GeoPoint) : calculateDistance p p = 0 := by
  unfold calculateDistance
  rw [haversineA_self]
  norm_num [atan2, Real.arctan_zero]

theorem retryOperationRun_all_fail (m d : ℕ) :
    ∀ r i, i + r = m →
      (retryOperationRun (fun _ => false) m d i r).1 =
        (List.range' i (m - 1 - i)).map (fun j => d * (j + 1)) := by
  intro r
  induction r with
  | zero =>
    intro i hi
    have : m - 1 - i = 0 := by omega
    simp [retryOperationRun, this]
  | succ r ih =>
    intro i hi
    by_cases hlt : i < m - 1
    · have hrange : m - 1 - i = (m - 1 - (i + 1)) + 1 := by omega
      simp only [retryOperationRun, Bool.false_eq_true, if_neg, ite_false,
        if_pos hlt]
      rw [ih (i + 1) (by omega), hrange, List.range'_succ]
      simp
    · have hr : r = 0 := by omega
      have : m - 1 - i = 0 := by omega
      subst hr
      simp [retryOperationRun, hlt, this]

/-- C3 counterexample: `retryOperation` in src/utils/errorHandler.ts
re-attempts a failed operation — with default arguments, three attempts —
and the delay slept between attempts increases (1000 ms, then 2000 ms). -/
theorem retryOperation_backoff_counterexample :
    retryOperation (fun _ => false) 3 1000 = ([1000, 2000], false) ∧
    1000 < 2000 := by
  decide

/-- C3 (amended): contrary to the claim, the codebase does contain retry
mechanisms with increasing delay beyond the pending-update queue of §4.1 —
among them the exported (but never called) `retryOperation` helper of
src/utils/errorHandler.ts, which re-attempts a failed operation up to
`maxRetries` times sleeping `delayMs * (i + 1)` between attempts (linear
backoff: the slept delays are exactly `delayMs·1, …,
delayMs·(maxRetries−1)`, strictly increasing whenever `delayMs > 0`), and
the dimensions loop of RuntimeSafeWrapper.tsx (mounted by
App.original.tsx), which re-attempts `Dimensions.get` up to 10 times
sleeping `2^retries · 100` ms (exponential backoff: delays 200, 400, …,
51200 ms, strictly increasing). -/
theorem retryOperation_linear_backoff (m d : ℕ) :
    ((retryOperation (fun _ => false) m d).1 =
      (List.range (m - 1)).map (fun j => d * (j + 1)) ∧
    (0 < d →
      List.Chain' (fun x y => x < y)
        ((retryOperation (fun _ => false) m d).1))) ∧
    ((dimensionsRetry (fun _ => false)).1 =
      (List.range' 1 9).map (fun i => 2 ^ i * 100) ∧
    List.Chain' (fun x y => x < y)
      ((dimensionsRetry (fun _ => false)).1)) := by
  have hchain : List.Chain' (fun x y => x < y)
      ((dimensionsRetry (fun _ => false)).1) := by
    have hlist : (dimensionsRetry (fun _ => false)).1 =
        [200, 400, 800, 1600, 3200, 6400, 12800, 25600, 51200] := by decide
    rw [hlist]
    norm_num [List.chain'_cons]
  have heq : (retryOperation (fun _ => false) m d).1 =
      (List.range (m - 1)).map (fun j => d * (j + 1)) := by
    have h := retryOperationRun_all_fail m d m 0 (by omega)
    rw [retryOperation, h]
    simp [List.range_eq_range']
  refine ⟨⟨heq, fun hd => ?_⟩, by decide, hchain⟩
  rw [heq, List.chain'_map]
  cases hk : m - 1 with
  | zero => simp
  | succ k =>
    rw [List.chain'_range_succ]
    intro j _
    exact (mul_lt_mul_left hd).mpr (by omega)

/-- Witness for the amended C3 at the default arguments
`maxRetries = 3`, `delayMs = 1000`. -/
theorem retryOperation_linear_backoff_witness :
    (retryOperation (fun _ => false) 3 1000).1 =
      (List.range (3 - 1)).map (fun j => 1000 * (j + 1)) ∧
    0 < 1000 ∧
    List.Chain' (fun x y => x < y)
      ((retryOperation (fun _ => false) 3 1000).1) ∧
    (dimensionsRetry (fun _ => false)).1 =
      (List.range' 1 9).map (fun i => 2 ^ i * 100) ∧
    List.Chain' (fun x y => x < y)
      ((dimensionsRetry (fun _ => false)).1) :=
  have h := retryOperation_linear_backoff 3 1000
  ⟨h.1.1, by decide, h.1.2 (by decide), h.2.1, h.2.2⟩

end ClientApp
